import Mathlib

/-!
Verification of the Performous `AudioBuffer` ring-buffer protocol and the
reader-thread decode loop (src/game/ffmpeg.cc), shallowly embedded in Lean.

Positions (`m_read_pos`, `m_write_pos`) are absolute sample counters (`Int`,
matching `std::int64_t`); the ring storage is a `List Int` of 16-bit samples;
float output buffers are `List ℚ` (mathematical reals are not needed: every
operation is field arithmetic).
-/

namespace da

/-- Modelled from the spec: the external libda conversion of a signed 16-bit
sample to floating point ("float-converted samples"); the exact scaling
constant is irrelevant to every claim, taken as division by 32768. -/
def conv_from_s16 (x : Int) : ℚ := (x : ℚ) / 32768

end da

/-- The shared state of `AudioBuffer`: ring storage, absolute cursors,
end-of-stream marker, control flags and the configured samples-per-second
(`m_sps = rate * AUDIO_CHANNELS`, fixed at construction). -/
structure AudioBuffer where
  m_data : List Int
  m_read_pos : Int
  m_write_pos : Int
  m_eof_pos : Option Int
  m_seek_asked : Bool
  m_quit : Bool
  m_sps : Nat
  deriving Repr, DecidableEq

namespace AudioBuffer

/-- `AudioBuffer::wantMore` (ffmpeg.cc:53-55):
`m_write_pos < m_read_pos + m_data.size() / 2`. -/
def wantMore (st : AudioBuffer) : Bool :=
  decide (st.m_write_pos < st.m_read_pos + (st.m_data.length / 2 : Nat))

/-- `AudioBuffer::condition` (ffmpeg.cc:58-60): should the producer stop
waiting? -/
def condition (st : AudioBuffer) : Bool :=
  st.m_quit || st.m_seek_asked || st.wantMore

/-- Modelled from the spec: `AudioBuffer::eof` is declared in ffmpeg.hh,
which is not part of the reviewed source; per the spec it holds iff
"`eof_pos` known and the range exceeds it". -/
def eof (st : AudioBuffer) (pos : Int) : Bool :=
  match st.m_eof_pos with
  | none => false
  | some e => decide (e < pos)

/-- Write `xs` into `l` starting at index `start`, leaving other entries
unchanged (the effect of `std::copy` into the ring). -/
def listWrite (l : List Int) (xs : List Int) (start : Nat) : List Int :=
  l.mapIdx (fun i a => if start ≤ i ∧ i < start + xs.length then xs.getD (i - start) 0 else a)

/-- `AudioBuffer::operator()` (ffmpeg.cc:62-89), the producer-side write.
The condition-variable wait is not part of the function: a call that
proceeds past the wait does so in a state where `condition` holds (the wait
postcondition), which the theorems below carry as a hypothesis.  Negative
positions are ignored, stale positions (`pos < m_read_pos`) are dropped,
a wake under `quit`/`seek_asked` aborts without mutation; otherwise
`m_write_pos` is set to `sample_position`, `count` samples are copied into
the ring starting at slot `m_write_pos mod size` (wrapping), and
`m_write_pos` advances by `count`. -/
def write (st : AudioBuffer) (data : List Int) (sample_position : Int) : AudioBuffer :=
  if sample_position < 0 then st
  else if sample_position < st.m_read_pos then st
  else if st.m_quit || st.m_seek_asked then st
  else
    let size := st.m_data.length
    let write_pos_in_ring := sample_position.toNat % size
    let first_hunk_size := min data.length (size - write_pos_in_ring)
    let d1 := listWrite st.m_data (data.take first_hunk_size) write_pos_in_ring
    let d2 := listWrite d1 (data.drop first_hunk_size) 0
    { st with m_write_pos := sample_position + data.length, m_data := d2 }

/-- Overwrite the first `n` entries of `out` with zeros
(`std::fill(begin, begin + n, 0)`). -/
def zeroFill (out : List ℚ) (n : Nat) : List ℚ :=
  List.replicate (min n out.length) 0 ++ out.drop n

/-- Mix (add, scaled by `volume`) ring samples starting at slot
`read_pos mod size` into the first `n` entries of `out`
(ffmpeg.cc:138-140). -/
def mixInto (out : List ℚ) (n : Nat) (ring : List Int) (read_pos : Int) (volume : ℚ) : List ℚ :=
  out.mapIdx (fun s x =>
    if s < n then
      x + volume * da.conv_from_s16 (ring.getD ((read_pos + s) % (ring.length : Int)).toNat 0)
    else x)

/-- The non-negative-position part of `AudioBuffer::read` (ffmpeg.cc:120-145),
acting on the first `samples0` entries of `out` (the source never advances
`begin`, it only shrinks `samples`).  Returns (result, new state, output). -/
def readPos (st : AudioBuffer) (out : List ℚ) (samples0 : Nat) (pos : Int) (volume : ℚ) :
    Bool × AudioBuffer × List ℚ :=
  if st.eof (pos + samples0) || st.m_quit then (false, st, out)
  else
    let cap := st.m_data.length
    let samples := min samples0 cap
    if pos ≥ st.m_read_pos + ((cap : Int) - samples) ∨ pos < st.m_read_pos then
      (true,
       { st with m_read_pos := pos + samples, m_seek_asked := true,
                 m_data := List.replicate cap 0 },
       zeroFill out samples)
    else
      (true,
       { st with m_read_pos := pos + samples },
       mixInto out samples st.m_data st.m_read_pos volume)

/-- `AudioBuffer::read` (ffmpeg.cc:104-145).  A negative `pos` zero-fills the
first `negative_samples` entries of `out`; if the whole request is negative
it returns true at once, otherwise the remaining positive portion is handled
by `readPos` at position 0 on the same (not advanced) output buffer. -/
def read (st : AudioBuffer) (out : List ℚ) (pos : Int) (volume : ℚ) :
    Bool × AudioBuffer × List ℚ :=
  if pos < 0 then
    let samples := out.length
    let negative_samples := if (samples : Int) + pos > 0 then (-pos).toNat else samples
    let out1 := zeroFill out negative_samples
    if negative_samples = samples then (true, st, out1)
    else readPos st out1 (samples - negative_samples) 0 volume
  else readPos st out out.length pos volume

/-- `AudioBuffer::~AudioBuffer` (ffmpeg.cc:187-197): reset both cursors to
zero, zero the ring, raise `quit`. -/
def dtor (st : AudioBuffer) : AudioBuffer :=
  { st with m_read_pos := 0, m_write_pos := 0,
            m_data := List.replicate st.m_data.length 0, m_quit := true }

/-- `AV_TIME_BASE` of the ffmpeg headers. -/
def AV_TIME_BASE : Nat := 1000000

/-- What the reader thread feeds to the decode loop body: one successful
frame, an end-of-stream signal, or a transient decode error
(ffmpeg.cc:167-182). -/
inductive DecodeEvent where
  | frameOk
  | eofEvt
  | errEvt
  deriving Repr, DecidableEq

/-- One iteration of the reader-thread loop body (ffmpeg.cc:156-183), given
the shared state, the consecutive-error counter and the decode outcome.
Returns the new state, the new error counter, and the time (seconds) passed
to `Decoder::seek` when the seek branch ran.  The seek branch clears
`m_seek_asked`, rewinds `m_write_pos` to `m_read_pos` and computes
`seek_pos = m_read_pos / double(AV_TIME_BASE)` (ffmpeg.cc:157-164); EOF
records `m_eof_pos = m_write_pos`; an error increments the counter (only
logging happens past two); a successful frame resets it. -/
def loopBody (st : AudioBuffer) (errors : Nat) (ev : DecodeEvent) :
    AudioBuffer × Nat × Option ℚ :=
  if st.m_seek_asked then
    ({ st with m_seek_asked := false, m_write_pos := st.m_read_pos },
     errors, some ((st.m_read_pos : ℚ) / (AV_TIME_BASE : ℚ)))
  else
    match ev with
    | .frameOk => (st, 0, none)
    | .eofEvt => ({ st with m_eof_pos := some st.m_write_pos }, errors, none)
    | .errEvt => (st, errors + 1, none)

end AudioBuffer

open AudioBuffer

/-- C7: every producer-side write whose absolute sample position is below
`read_pos` is a pure no-op: it returns before the wait and leaves `read_pos`,
`write_pos`, `eof_pos`, the control flags and the ring contents unchanged. -/
theorem C7_stale_write_noop (st : AudioBuffer) (data : List Int) (pos : Int)
    (h : pos < st.m_read_pos) : st.write data pos = st := by
  unfold AudioBuffer.write
  by_cases h0 : pos < 0
  · simp [h0]
  · simp [h0, h]

theorem C7_stale_write_noop_witness :
    AudioBuffer.write ⟨List.replicate 8 0, 2, 3, none, false, false, 96000⟩ [7] 1 =
      ⟨List.replicate 8 0, 2, 3, none, false, false, 96000⟩ :=
  C7_stale_write_noop ⟨List.replicate 8 0, 2, 3, none, false, false, 96000⟩ [7] 1 (by decide)

/-- C9: a transient decode error never terminates the reader loop: the error
step leaves `quit` untouched (so the `while (!m_quit)` guard re-enters for
every error count, two or more included), increments the consecutive-error
counter, and any successful frame resets the counter to zero. -/
theorem C9_transient_errors_never_stop_loop (st : AudioBuffer) (errors : Nat)
    (hs : st.m_seek_asked = false) :
    (st.loopBody errors .errEvt).1.m_quit = st.m_quit ∧
    (st.loopBody errors .errEvt).2.1 = errors + 1 ∧
    (st.loopBody errors .frameOk).2.1 = 0 := by
  simp [AudioBuffer.loopBody, hs]

theorem C9_transient_errors_never_stop_loop_witness :
    ((⟨List.replicate 8 0, 0, 0, none, false, false, 96000⟩ : AudioBuffer).loopBody 5
        .errEvt).1.m_quit =
      (⟨List.replicate 8 0, 0, 0, none, false, false, 96000⟩ : AudioBuffer).m_quit ∧
    ((⟨List.replicate 8 0, 0, 0, none, false, false, 96000⟩ : AudioBuffer).loopBody 5
        .errEvt).2.1 = 5 + 1 ∧
    ((⟨List.replicate 8 0, 0, 0, none, false, false, 96000⟩ : AudioBuffer).loopBody 5
        .frameOk).2.1 = 0 :=
  C9_transient_errors_never_stop_loop ⟨List.replicate 8 0, 0, 0, none, false, false, 96000⟩ 5 rfl

/-- C1: the seek branch of the reader thread does reset `write_pos` to
`read_pos` and clear the seek flag, but the decoder seek target is
`read_pos / AV_TIME_BASE` (= 1000000), not `read_pos` divided by the
configured sample rate: at `read_pos = 96000` with `m_sps = 96000`
(rate 48000 stereo) the intended target is 1.0 s while the code passes
0.096 s to the decoder. -/
theorem C1_seek_target_uses_av_time_base :
    ((⟨List.replicate 8 0, 96000, 0, none, true, false, 96000⟩ : AudioBuffer).loopBody 0
        .frameOk).1.m_write_pos = 96000 ∧
    ((⟨List.replicate 8 0, 96000, 0, none, true, false, 96000⟩ : AudioBuffer).loopBody 0
        .frameOk).1.m_seek_asked = false ∧
    ((⟨List.replicate 8 0, 96000, 0, none, true, false, 96000⟩ : AudioBuffer).loopBody 0
        .frameOk).2.2 = some ((96000 : ℚ) / 1000000) ∧
    (96000 : ℚ) / 1000000 ≠
      ((⟨List.replicate 8 0, 96000, 0, none, true, false, 96000⟩ : AudioBuffer).m_read_pos : ℚ) /
        ((⟨List.replicate 8 0, 96000, 0, none, true, false, 96000⟩ : AudioBuffer).m_sps : ℚ) := by
  refine ⟨rfl, rfl, ?_, by norm_num⟩
  simp [AudioBuffer.loopBody, AudioBuffer.AV_TIME_BASE]

/-- C2 counterexample: with capacity 8, `read_pos = write_pos = 0`, the wait
condition already holds (the call never blocks), yet a write of 8 samples at
position 5 completes with `write_pos = 13 > read_pos + capacity = 8`. -/
theorem C2_counterexample :
    AudioBuffer.condition ⟨List.replicate 8 0, 0, 0, none, false, false, 96000⟩ = true ∧
    (⟨List.replicate 8 0, 0, 0, none, false, false, 96000⟩ : AudioBuffer).m_read_pos +
        ((⟨List.replicate 8 0, 0, 0, none, false, false, 96000⟩ : AudioBuffer).m_data.length : Int) <
      (AudioBuffer.write ⟨List.replicate 8 0, 0, 0, none, false, false, 96000⟩
        (List.replicate 8 7) 5).m_write_pos := by
  decide

/-- C8 counterexample: a write (not a seek commit) decreases `write_pos`:
from `read_pos = 0, write_pos = 3`, writing one sample at position 1
completes (the wait condition holds, the frame is not stale) and leaves
`write_pos = 2 < 3`. -/
theorem C8_counterexample :
    (AudioBuffer.write ⟨List.replicate 8 0, 0, 3, none, false, false, 96000⟩ [7] 1).m_write_pos <
      (⟨List.replicate 8 0, 0, 3, none, false, false, 96000⟩ : AudioBuffer).m_write_pos := by
  decide

/-- C5 counterexample: with `quit` set, a read whose whole range is negative
(`pos = -5`, 3 samples) still returns true — the all-negative early return
precedes the `eof`/`quit` check, so "returns false iff eof-covered or quit"
fails. -/
theorem C5_counterexample :
    (⟨List.replicate 8 0, 0, 0, none, false, true, 96000⟩ : AudioBuffer).m_quit = true ∧
    (AudioBuffer.read ⟨List.replicate 8 0, 0, 0, none, false, true, 96000⟩ [1, 1, 1] (-5) 1).1 =
      true := by
  decide

/-- C6: the pre-roll silence is overwritten.  Reading 2 samples at position
-1 from a buffer whose ring starts with sample 100 (`read_pos = 0`) first
zero-fills output index 0 (the negative position), but the positive-portion
mix then lands at output index 0 as well (the source never advances `begin`
after the fill), so the entry covering the negative position ends up holding
ring data (100/32768 ≠ 0) while index 1 keeps the caller's old value. -/
theorem C6_positive_data_overwrites_preroll_silence :
    (AudioBuffer.read ⟨[100, 200, 0, 0, 0, 0, 0, 0], 0, 2, none, false, false, 96000⟩
        [1, 1] (-1) 1).2.2 = [100 / 32768, 1] ∧
    (100 / 32768 : ℚ) ≠ 0 := by
  constructor
  · simp [AudioBuffer.read, AudioBuffer.readPos, AudioBuffer.mixInto, AudioBuffer.zeroFill,
      AudioBuffer.eof, da.conv_from_s16, List.mapIdx, List.mapIdx.go]
  · norm_num

/-- Result of `readPos` is `false` exactly when `eof` covers the range or
`quit` is set (the early all-negative return in `read` is not part of
`readPos`). -/
theorem readPos_fst_false_iff (st : AudioBuffer) (out : List ℚ) (samples0 : Nat) (pos : Int)
    (volume : ℚ) :
    (st.readPos out samples0 pos volume).1 = false ↔
      (st.eof (pos + samples0) = true ∨ st.m_quit = true) := by
  unfold AudioBuffer.readPos
  by_cases h : (st.eof (pos + samples0) || st.m_quit) = true
  · rw [if_pos h]
    simpa using Bool.or_eq_true_iff.mp h
  · rw [if_neg h]
    have hr : ¬ (st.eof (pos + samples0) = true ∨ st.m_quit = true) :=
      fun hc => h (Bool.or_eq_true_iff.mpr hc)
    dsimp only
    split_ifs <;> simpa using hr

/-- Entry `s` of `mapIdx` for an in-range index. -/
theorem getD_mapIdx_lt {α β : Type} (l : List α) (f : Nat → α → β) (s : Nat)
    (hso : s < l.length) (d : β) :
    (l.mapIdx f).getD s d = f s (l.get ⟨s, hso⟩) := by
  have hlen2 : s < (l.mapIdx f).length := by
    rw [List.length_mapIdx]
    exact hso
  rw [List.getD_eq_getElem?_getD, List.getElem?_eq_getElem hlen2, Option.getD_some]
  exact List.get_mapIdx l f s hso

/-- Entry `s < n` of `mixInto`: the source slot is `(read_pos + s) mod size`. -/
theorem mixInto_getD (out : List ℚ) (n : Nat) (ring : List Int) (rp : Int) (vol : ℚ)
    (s : Nat) (hs : s < n) (hso : s < out.length) :
    (AudioBuffer.mixInto out n ring rp vol).getD s 0 =
      out.getD s 0 + vol * da.conv_from_s16 (ring.getD ((rp + s) % (ring.length : Int)).toNat 0) := by
  unfold AudioBuffer.mixInto
  rw [getD_mapIdx_lt out _ s hso, if_pos hs,
    show out.get ⟨s, hso⟩ = out.getD s 0 by
      rw [List.getD_eq_getElem?_getD, List.getElem?_eq_getElem hso, Option.getD_some]
      rfl]

/-- C2 amended: a write that proceeds past its wait does so from a state
where `write_pos < read_pos + capacity/2` — the blocking threshold is half
the capacity, not the capacity — and the completed write leaves
`write_pos = sample_position + count`, which is not bounded by
`read_pos + capacity` (see the counterexample). -/
theorem C2_write_headroom_half_capacity (st : AudioBuffer) (data : List Int) (pos : Int)
    (hq : st.m_quit = false) (hs : st.m_seek_asked = false)
    (hc : st.condition = true) (hp : 0 ≤ pos) (h1 : st.m_read_pos ≤ pos) :
    st.m_write_pos < st.m_read_pos + (st.m_data.length / 2 : Nat) ∧
    (st.write data pos).m_write_pos = pos + data.length := by
  have hwm : st.wantMore = true := by
    simpa [AudioBuffer.condition, hq, hs] using hc
  have h2 : st.m_write_pos < st.m_read_pos + (st.m_data.length / 2 : Nat) := by
    simpa [AudioBuffer.wantMore] using hwm
  refine ⟨h2, ?_⟩
  unfold AudioBuffer.write
  rw [if_neg (by omega), if_neg (by omega), if_neg (by simp [hq, hs])]

theorem C2_write_headroom_half_capacity_witness :
    (⟨List.replicate 8 0, 0, 0, none, false, false, 96000⟩ : AudioBuffer).m_write_pos <
      (⟨List.replicate 8 0, 0, 0, none, false, false, 96000⟩ : AudioBuffer).m_read_pos +
        ((⟨List.replicate 8 0, 0, 0, none, false, false, 96000⟩ : AudioBuffer).m_data.length / 2 :
          Nat) ∧
    (AudioBuffer.write ⟨List.replicate 8 0, 0, 0, none, false, false, 96000⟩ [7] 0).m_write_pos =
      0 + ([7] : List Int).length :=
  C2_write_headroom_half_capacity ⟨List.replicate 8 0, 0, 0, none, false, false, 96000⟩ [7] 0
    rfl rfl (by decide) (by decide) (by decide)

/-- C3: for a request whose position lies in
`[read_pos, read_pos + capacity - count]` with no pending seek, no quit and
end-of-stream not covering the range, `read` returns true and leaves
`read_pos = position + count`. -/
theorem C3_read_in_window (st : AudioBuffer) (out : List ℚ) (pos : Int) (volume : ℚ)
    (hq : st.m_quit = false)
    (he : st.eof (pos + out.length) = false)
    (hs : st.m_seek_asked = false)
    (hr : 0 ≤ st.m_read_pos)
    (h1 : st.m_read_pos ≤ pos)
    (h2 : pos ≤ st.m_read_pos + ((st.m_data.length : Int) - out.length))
    (h3 : out.length ≤ st.m_data.length) :
    (st.read out pos volume).1 = true ∧
    (st.read out pos volume).2.1.m_read_pos = pos + out.length := by
  unfold AudioBuffer.read
  rw [if_neg (by omega)]
  unfold AudioBuffer.readPos
  rw [if_neg (by simp [he, hq])]
  have hmin : min out.length st.m_data.length = out.length := Nat.min_eq_left h3
  simp only [hmin]
  split_ifs with hw
  · exact ⟨rfl, rfl⟩
  · exact ⟨rfl, rfl⟩

theorem C3_read_in_window_witness :
    (AudioBuffer.read ⟨[1, 2, 3, 4, 5, 6, 7, 8], 0, 4, none, false, false, 96000⟩
        [0, 0] 0 1).1 = true ∧
    (AudioBuffer.read ⟨[1, 2, 3, 4, 5, 6, 7, 8], 0, 4, none, false, false, 96000⟩
        [0, 0] 0 1).2.1.m_read_pos = 0 + (([0, 0] : List ℚ).length : Int) :=
  C3_read_in_window ⟨[1, 2, 3, 4, 5, 6, 7, 8], 0, 4, none, false, false, 96000⟩ [0, 0] 0 1
    rfl (by decide) rfl (by decide) (by decide) (by decide) (by decide)

/-- C4 counterexample: the claim omits the quit/eof guard and the count
clamp.  With `quit` set, a read at position 100 (far outside the window)
returns false, not true; and with `count = 5 > capacity = 2`, the seek
branch sets `read_pos = position + clamped count = 12`, not
`position + count = 15`. -/
theorem C4_counterexample :
    (AudioBuffer.read ⟨List.replicate 8 0, 0, 0, none, false, true, 96000⟩
        [0, 0] 100 1).1 ≠ true ∧
    (AudioBuffer.read ⟨[0, 0], 0, 0, none, false, false, 96000⟩
        (List.replicate 5 0) 10 1).2.1.m_read_pos ≠ 10 + 5 := by
  decide

/-- C4 amended: provided `quit` is unset, end-of-stream does not cover the
range, `count ≤ capacity` and the non-negative position lies strictly
outside `[read_pos, read_pos + capacity - count]`, `read` returns true,
overwrites the output with zeros, sets `read_pos = position + count`,
raises `seek_requested` and zeroes the whole ring. -/
theorem C4_read_outside_window_seeks (st : AudioBuffer) (out : List ℚ) (pos : Int) (volume : ℚ)
    (hq : st.m_quit = false)
    (he : st.eof (pos + out.length) = false)
    (hp : 0 ≤ pos)
    (h3 : out.length ≤ st.m_data.length)
    (hw : pos < st.m_read_pos ∨ st.m_read_pos + ((st.m_data.length : Int) - out.length) < pos) :
    (st.read out pos volume).1 = true ∧
    (st.read out pos volume).2.2 = List.replicate out.length 0 ∧
    (st.read out pos volume).2.1.m_read_pos = pos + out.length ∧
    (st.read out pos volume).2.1.m_seek_asked = true ∧
    (st.read out pos volume).2.1.m_data = List.replicate st.m_data.length 0 := by
  unfold AudioBuffer.read
  rw [if_neg (by omega)]
  unfold AudioBuffer.readPos
  rw [if_neg (by simp [he, hq])]
  have hmin : min out.length st.m_data.length = out.length := Nat.min_eq_left h3
  simp only [hmin]
  rw [if_pos (by omega)]
  refine ⟨rfl, ?_, rfl, rfl, rfl⟩
  simp [AudioBuffer.zeroFill]

theorem C4_read_outside_window_seeks_witness :
    (AudioBuffer.read ⟨[1, 2, 3, 4, 5, 6, 7, 8], 0, 4, none, false, false, 96000⟩
        [0, 0] 100 1).1 = true ∧
    (AudioBuffer.read ⟨[1, 2, 3, 4, 5, 6, 7, 8], 0, 4, none, false, false, 96000⟩
        [0, 0] 100 1).2.2 = List.replicate ([0, 0] : List ℚ).length 0 ∧
    (AudioBuffer.read ⟨[1, 2, 3, 4, 5, 6, 7, 8], 0, 4, none, false, false, 96000⟩
        [0, 0] 100 1).2.1.m_read_pos = 100 + (([0, 0] : List ℚ).length : Int) ∧
    (AudioBuffer.read ⟨[1, 2, 3, 4, 5, 6, 7, 8], 0, 4, none, false, false, 96000⟩
        [0, 0] 100 1).2.1.m_seek_asked = true ∧
    (AudioBuffer.read ⟨[1, 2, 3, 4, 5, 6, 7, 8], 0, 4, none, false, false, 96000⟩
        [0, 0] 100 1).2.1.m_data =
      List.replicate
        (⟨[1, 2, 3, 4, 5, 6, 7, 8], 0, 4, none, false, false, 96000⟩ : AudioBuffer).m_data.length
        0 :=
  C4_read_outside_window_seeks ⟨[1, 2, 3, 4, 5, 6, 7, 8], 0, 4, none, false, false, 96000⟩
    [0, 0] 100 1 rfl (by decide) (by decide) (by decide) (Or.inr (by decide))

/-- C5 amended: `read` returns false exactly when `quit` is set or
end-of-stream covers the range — except that a request lying wholly in
negative territory (`position < 0` and `position + count ≤ 0`) always
returns true, before either condition is consulted. -/
theorem C5_read_false_iff (st : AudioBuffer) (out : List ℚ) (pos : Int) (volume : ℚ) :
    (st.read out pos volume).1 = false ↔
      ((0 ≤ pos ∨ 0 < pos + (out.length : Int)) ∧
       (st.eof (pos + out.length) = true ∨ st.m_quit = true)) := by
  unfold AudioBuffer.read
  by_cases hneg : pos < 0
  · rw [if_pos hneg]
    dsimp only
    by_cases hall : (out.length : Int) + pos > 0
    · rw [if_pos hall, if_neg (show ¬ (-pos).toNat = out.length by omega)]
      rw [readPos_fst_false_iff]
      rw [show (0 : Int) + ((out.length - (-pos).toNat : Nat) : Int) = pos + out.length by omega]
      constructor
      · intro hc
        exact ⟨Or.inr (by omega), hc⟩
      · rintro ⟨_, hc⟩
        exact hc
    · rw [if_neg hall, if_pos rfl]
      constructor
      · intro hc
        exact absurd hc (by simp)
      · rintro ⟨h1, _⟩
        rcases h1 with h1 | h1 <;> omega
  · rw [if_neg hneg]
    rw [readPos_fst_false_iff]
    constructor
    · intro hc
      exact ⟨Or.inl (by omega), hc⟩
    · rintro ⟨_, hc⟩
      exact hc

/-- C8 amended: writes never change `read_pos`, and a completed write keeps
`write_pos ≥ read_pos`; the destructor resets both cursors to zero — but
`write_pos` is not monotone across writes (see the counterexample: a write
with `read_pos ≤ position < write_pos` rewinds it). -/
theorem C8_cursor_behavior (st : AudioBuffer) (data : List Int) (pos : Int)
    (hq : st.m_quit = false) (hs : st.m_seek_asked = false)
    (h1 : st.m_read_pos ≤ pos) (hp : 0 ≤ pos) :
    (st.write data pos).m_read_pos = st.m_read_pos ∧
    st.m_read_pos ≤ (st.write data pos).m_write_pos ∧
    st.dtor.m_read_pos = 0 ∧ st.dtor.m_write_pos = 0 := by
  unfold AudioBuffer.write AudioBuffer.dtor
  rw [if_neg (by omega), if_neg (by omega), if_neg (by simp [hq, hs])]
  refine ⟨rfl, ?_, rfl, rfl⟩
  show st.m_read_pos ≤ pos + (data.length : Int)
  have : (0 : Int) ≤ data.length := by positivity
  omega

theorem C8_cursor_behavior_witness :
    (AudioBuffer.write ⟨List.replicate 8 0, 0, 0, none, false, false, 96000⟩ [7] 0).m_read_pos =
      (⟨List.replicate 8 0, 0, 0, none, false, false, 96000⟩ : AudioBuffer).m_read_pos ∧
    (⟨List.replicate 8 0, 0, 0, none, false, false, 96000⟩ : AudioBuffer).m_read_pos ≤
      (AudioBuffer.write ⟨List.replicate 8 0, 0, 0, none, false, false, 96000⟩ [7] 0).m_write_pos ∧
    (⟨List.replicate 8 0, 0, 0, none, false, false, 96000⟩ : AudioBuffer).dtor.m_read_pos = 0 ∧
    (⟨List.replicate 8 0, 0, 0, none, false, false, 96000⟩ : AudioBuffer).dtor.m_write_pos = 0 :=
  C8_cursor_behavior ⟨List.replicate 8 0, 0, 0, none, false, false, 96000⟩ [7] 0
    rfl rfl (by decide) (by decide)

/-- C10: an in-window read mixes ring slots starting at the current
`read_pos` — entry `s` of the output receives
`volume * conv(ring[(read_pos + s) mod capacity])` — while the requested
position only determines the new `read_pos = position + count`. -/
theorem C10_mix_slots_start_at_read_pos (st : AudioBuffer) (out : List ℚ) (pos : Int) (volume : ℚ)
    (hq : st.m_quit = false)
    (he : st.eof (pos + out.length) = false)
    (hr : 0 ≤ st.m_read_pos)
    (h1 : st.m_read_pos ≤ pos)
    (h2 : pos < st.m_read_pos + ((st.m_data.length : Int) - out.length))
    (h3 : out.length ≤ st.m_data.length) :
    (st.read out pos volume).2.1.m_read_pos = pos + out.length ∧
    ∀ s : Nat, s < out.length →
      (st.read out pos volume).2.2.getD s 0 =
        out.getD s 0 + volume * da.conv_from_s16
          (st.m_data.getD ((st.m_read_pos + s) % (st.m_data.length : Int)).toNat 0) := by
  unfold AudioBuffer.read
  rw [if_neg (by omega)]
  unfold AudioBuffer.readPos
  rw [if_neg (by simp [he, hq])]
  have hmin : min out.length st.m_data.length = out.length := Nat.min_eq_left h3
  simp only [hmin]
  rw [if_neg (by omega)]
  exact ⟨rfl, fun s hs => mixInto_getD out out.length st.m_data st.m_read_pos volume s hs hs⟩

theorem C10_mix_slots_start_at_read_pos_witness :
    (AudioBuffer.read ⟨[1, 2, 3, 4, 5, 6, 7, 8], 0, 4, none, false, false, 96000⟩
        [0, 0] 1 1).2.1.m_read_pos = 1 + (([0, 0] : List ℚ).length : Int) ∧
    (AudioBuffer.read ⟨[1, 2, 3, 4, 5, 6, 7, 8], 0, 4, none, false, false, 96000⟩
        [0, 0] 1 1).2.2.getD 0 0 =
      ([0, 0] : List ℚ).getD 0 0 + 1 * da.conv_from_s16
        ((⟨[1, 2, 3, 4, 5, 6, 7, 8], 0, 4, none, false, false, 96000⟩ : AudioBuffer).m_data.getD
          (((⟨[1, 2, 3, 4, 5, 6, 7, 8], 0, 4, none, false, false, 96000⟩ : AudioBuffer).m_read_pos +
              ((0 : Nat) : Int)) %
            ((⟨[1, 2, 3, 4, 5, 6, 7, 8], 0, 4, none, false, false, 96000⟩ :
                AudioBuffer).m_data.length : Int)).toNat
          0) :=
  ⟨(C10_mix_slots_start_at_read_pos ⟨[1, 2, 3, 4, 5, 6, 7, 8], 0, 4, none, false, false, 96000⟩
      [0, 0] 1 1 rfl (by decide) (by decide) (by decide) (by decide) (by decide)).1,
   (C10_mix_slots_start_at_read_pos ⟨[1, 2, 3, 4, 5, 6, 7, 8], 0, 4, none, false, false, 96000⟩
      [0, 0] 1 1 rfl (by decide) (by decide) (by decide) (by decide) (by decide)).2 0 (by decide)⟩
